import Mathlib

/-!
Shallow embedding of the `pipe` package of the `pipeit` repository
(`pipe.go`): a `ProcessManager` that spawns a child process over a PTY or
over standard pipes, drains its output streams into caller-supplied
handlers, and offers write/stop/wait/resize operations.

Modelling conventions:
  * Bytes are `Nat` values; the library's strings are ASCII, so a string's
    byte image is `s.data.map Char.toNat`.
  * A caller-supplied handler value (`OutputHandler`, a Go function value)
    is identified by a `Nat`; the nil handler is `none : Option Nat`.
  * Files (PTY master, pipe ends) are identified by `Nat` ids; the OS-level
    open/closed status lives in the manager state's `closedFiles` list.
  * Each fallible OS boundary step (pipe creation, spawn, kill, read) is
    driven by an explicit outcome parameter, so every operation is a pure
    function of the state and the outcomes.
-/

namespace Pipeit

/-- Byte strings: each entry is one byte value. -/
abbrev Bytes := List Nat

/-- Byte image of an ASCII string (`[]byte(s)` in Go for the ASCII strings
this library builds). -/
def bytesOfString (s : String) : Bytes := s.data.map Char.toNat

/-- Special terminal key sequences (`KeyEnter` .. `KeyCtrlC` in `pipe.go`). -/
def KeyEnter : String := "\r"

def KeyArrowUp : String := "\x1b[A"

def KeyArrowDown : String := "\x1b[B"

def KeyArrowLeft : String := "\x1b[D"

def KeyArrowRight : String := "\x1b[C"

def KeyTab : String := "\t"

def KeyEscape : String := "\x1b"

def KeyCtrlC : String := "\x03"

/-- Error value a `Read` call can report alongside its byte count:
`io.EOF`, the Linux `syscall.EIO` (“input/output error”, how a PTY reports
that the slave side is gone), or any other error carrying a message. -/
inductive ReadErr where
  | eof
  | eio
  | other (msg : String)
deriving DecidableEq, Repr

/-- The message `fmt` produces for a read error (`%v`). -/
def ReadErr.message : ReadErr → String
  | .eof => "EOF"
  | .eio => "input/output error"
  | .other msg => msg

/-- One result of a blocking `Read(buf)` call: the bytes stored into the
front of the buffer, and the error reported together with them (Go returns
both at once; `none` means no error). -/
abbrev ReadResult := Bytes × Option ReadErr

/-- `Read` writing `chunk` into the front of buffer `buf` (the rest of the
buffer keeps its old contents). -/
def bufWrite (buf chunk : Bytes) : Bytes := chunk ++ buf.drop chunk.length

/-- A handler invocation: which handler value ran, and the byte chunk it
received. The drain loops below produce the list of invocations in order. -/
abbrev Event := Nat × Bytes

/-- One iteration's view of the world for the PTY drain loop: the values
the manager's handler slots hold when this iteration runs (the loop locks
and re-reads them), and what the `Read` call returns. -/
structure PtyStep where
  onOutput : Option Nat
  onError : Option Nat
  read : ReadResult
deriving DecidableEq, Repr

/-- The PTY drain loop `readOutput`: reads into a shared 4096-byte buffer,
copies the `n` read bytes into a fresh slice, re-reads `p.onOutput` under
the lock and invokes it with the copy when non-nil; on a read error it
re-reads `p.onError`, delivers a formatted diagnostic unless the error is
`io.EOF` or `syscall.EIO`, and breaks. `buf` threads the shared buffer. -/
def readOutput (buf : Bytes) : List PtyStep → List Event
  | [] => []
  | s :: rest =>
    let chunk := s.read.1
    let buf2 := bufWrite buf chunk
    let data := buf2.take chunk.length
    let dataEvents : List Event :=
      if chunk.length > 0 then
        match s.onOutput with
        | some h => [(h, data)]
        | none => []
      else []
    match s.read.2 with
    | none => dataEvents ++ readOutput buf2 rest
    | some e =>
      dataEvents ++
        if e ≠ ReadErr.eof ∧ e ≠ ReadErr.eio then
          match s.onError with
          | some h => [(h, bytesOfString ("\n[Read Error]: " ++ e.message ++ "\n"))]
          | none => []
        else []

/-- The pipe-mode drain loop `readFromReader`: same buffered read and fresh
copy, but the handler is the `handler` argument the goroutine was launched
with — it is never re-read from the manager — and only `io.EOF` is exempt
from the diagnostic (the diagnostic also goes to this same `handler`). -/
def readFromReader (handler : Option Nat) (buf : Bytes) :
    List ReadResult → List Event
  | [] => []
  | (chunk, e) :: rest =>
    let buf2 := bufWrite buf chunk
    let data := buf2.take chunk.length
    let dataEvents : List Event :=
      if chunk.length > 0 then
        match handler with
        | some h => [(h, data)]
        | none => []
      else []
    match e with
    | none => dataEvents ++ readFromReader handler buf2 rest
    | some er =>
      dataEvents ++
        if er ≠ ReadErr.eof then
          match handler with
          | some h => [(h, bytesOfString ("[Read Error]: " ++ er.message ++ "\n"))]
          | none => []
        else []

example :
    readFromReader (some 1) (List.replicate 8 0)
      [([65, 66], none), ([67], none), ([], some ReadErr.eof)] =
      [(1, [65, 66]), (1, [67])] := by decide

example :
    readOutput (List.replicate 8 0)
      [⟨some 1, some 2, ([65], none)⟩, ⟨some 1, some 2, ([], some ReadErr.eio)⟩] =
      [(1, [65])] := by decide

/-- The `ProcessManager` state. `pty` and `stdinPipe` hold file ids once
bound (`Stop` closes the files but never resets these fields to `none`).
`createdPipes` records every parent-side pipe ever created by
`StartWithPipes`; `closedFiles` records which file ids have been closed.
`drains` records each launched pipe-mode drain goroutine as
(stream file id, the handler value passed to `readFromReader` at launch);
`ptyDrain` records that the PTY drain goroutine was launched. -/
structure PM where
  command : String
  args : List String
  env : List String
  pty : Option Nat := none
  stdinPipe : Option Nat := none
  onOutput : Option Nat := none
  onError : Option Nat := none
  running : Bool := false
  cancelled : Bool := false
  proc : Option Nat := none
  createdPipes : List Nat := []
  closedFiles : List Nat := []
  drains : List (Nat × Option Nat) := []
  ptyDrain : Bool := false
deriving DecidableEq, Repr

/-- `Config` for `NewWithConfig`; handler values as in `PM`. -/
structure Config where
  command : String
  args : List String := []
  env : List String := []
  onOutput : Option Nat := none
  onError : Option Nat := none
deriving DecidableEq, Repr

/-- `New(command, args...)`: binds the command, the inherited environment
`environ` (`os.Environ()`), a fresh cancellation token and no handlers. -/
def New (environ : List String) (command : String) (args : List String) : PM :=
  { command := command, args := args, env := environ }

/-- `NewWithConfig(cfg)`: like `New` but the environment is
`os.Environ() ++ cfg.Env` when `len(cfg.Env) > 0` and `os.Environ()`
otherwise, and the config handlers are pre-registered. -/
def NewWithConfig (environ : List String) (cfg : Config) : PM :=
  { command := cfg.command, args := cfg.args,
    env := if cfg.env.length > 0 then environ ++ cfg.env else environ,
    onOutput := cfg.onOutput, onError := cfg.onError }

/-- `SetOutputHandler`: replaces the stdout handler slot under the lock. -/
def SetOutputHandler (p : PM) (handler : Option Nat) : PM :=
  { p with onOutput := handler }

/-- `SetErrorHandler`: replaces the stderr handler slot under the lock. -/
def SetErrorHandler (p : PM) (handler : Option Nat) : PM :=
  { p with onError := handler }

/-- `StartWithPTY`: `pty.Start(p.cmd)` either fails (`ptyOk = false`;
state unchanged, wrapped error returned) or allocates the PTY master file
`fid`, spawns the child `pid`, sets `running` and launches `readOutput`. -/
def StartWithPTY (p : PM) (ptyOk : Bool) (fid pid : Nat) :
    PM × Option String :=
  if ptyOk then
    ({ p with pty := some fid, proc := some pid, running := true,
              ptyDrain := true }, none)
  else
    (p, some "start PTY failed")

/-- Outcomes of the four fallible steps of `StartWithPipes`, in program
order: `cmd.StdinPipe()`, `cmd.StdoutPipe()`, `cmd.StderrPipe()`,
`cmd.Start()`. -/
structure PipeOutcomes where
  stdinOk : Bool
  stdoutOk : Bool
  stderrOk : Bool
  spawnOk : Bool
deriving DecidableEq, Repr

/-- `StartWithPipes`: creates the three pipes in order (binding
`p.stdinPipe` as soon as the stdin pipe exists), then spawns. A pipe
creation failure returns at once, leaving every pipe created so far open
(nothing on that path closes them). A spawn failure makes `cmd.Start`
close all three created pipes (os/exec behavior) but leaves `stdinPipe`
bound. On success `running` is set, the process handle bound, and the two
`readFromReader` goroutines are launched with the handler values the
slots hold at that moment. -/
def StartWithPipes (p : PM) (o : PipeOutcomes) (sIn sOut sErr pid : Nat) :
    PM × Option String :=
  if ¬ o.stdinOk then
    (p, some "create stdin pipe")
  else
    let p1 := { p with stdinPipe := some sIn,
                       createdPipes := sIn :: p.createdPipes }
    if ¬ o.stdoutOk then
      (p1, some "create stdout pipe")
    else
      let p2 := { p1 with createdPipes := sOut :: p1.createdPipes }
      if ¬ o.stderrOk then
        (p2, some "create stderr pipe")
      else
        let p3 := { p2 with createdPipes := sErr :: p2.createdPipes }
        if ¬ o.spawnOk then
          ({ p3 with closedFiles := sErr :: sOut :: sIn :: p3.closedFiles },
           some "start command")
        else
          ({ p3 with running := true, proc := some pid,
                     drains := [(sOut, p3.onOutput), (sErr, p3.onError)] },
           none)

/-- A `Write` failure: no input sink bound, or the bound file was closed
(the error `os.File.Write`/the pipe writer reports after `Close`). -/
inductive WriteError where
  | noInput
  | closed (fid : Nat)
deriving DecidableEq, Repr

/-- The underlying write on file `fid`: succeeds with the byte count when
the file is open, reports the closed-file error otherwise. -/
def osWrite (p : PM) (fid : Nat) (data : Bytes) : Except WriteError Nat :=
  if fid ∈ p.closedFiles then .error (.closed fid) else .ok data.length

/-- `Write(data)`: under the lock, writes to the PTY master when `pty` is
bound, else to the stdin pipe when bound, else fails with the
"no input pipe available" error. -/
def Write (p : PM) (data : Bytes) : Except WriteError Nat :=
  match p.pty with
  | some fid => osWrite p fid data
  | none =>
    match p.stdinPipe with
    | some fid => osWrite p fid data
    | none => .error .noInput

/-- Error part of a write result (`_, err := p.Write(...)`). -/
def writeErrOf : Except WriteError Nat → Option WriteError
  | .ok _ => none
  | .error e => some e

/-- `WriteString(s)`: `Write([]byte(s))`, byte count discarded. -/
def WriteString (p : PM) (s : String) : Option WriteError :=
  writeErrOf (Write p (bytesOfString s))

/-- `Writef(format, args...)`: `fmt.Sprintf` is an external boundary, so
the model takes the already-formatted string; byte count discarded. -/
def Writef (p : PM) (formatted : String) : Option WriteError :=
  writeErrOf (Write p (bytesOfString formatted))

/-- `Writeln(s)`: `WriteString(s + "\n")`. -/
def Writeln (p : PM) (s : String) : Option WriteError :=
  WriteString p (s ++ "\n")

/-- `IsRunning()`: lock-protected read of the `running` flag. -/
def IsRunning (p : PM) : Bool := p.running

/-- What `Stop` reported: whether a kill request was sent to a process
handle, and the error `Stop` returns (the kill's error when sent). -/
structure StopOut where
  killSent : Bool
  err : Option String
deriving DecidableEq, Repr

/-- `Stop()`: under the lock — cancels the context, clears `running`,
closes the PTY master and the stdin pipe writer when bound (their `Close`
results are discarded; the fields stay bound), and sends `Process.Kill`
iff a process handle exists, returning that kill's error (`killErr` is
the OS outcome of the kill request), else returns nil. -/
def Stop (p : PM) (killErr : Option String) : PM × StopOut :=
  let p1 := { p with cancelled := true, running := false,
                     closedFiles :=
                       p.pty.toList ++ p.stdinPipe.toList ++ p.closedFiles }
  match p.proc with
  | some _ => (p1, { killSent := true, err := killErr })
  | none => (p1, { killSent := false, err := none })

/-- `Wait()`: `return p.cmd.Wait()` — blocks until the child exits and
returns its exit error; touches no manager field. `exitErr` is the exit
status the OS reports. -/
def Wait (p : PM) (exitErr : Option String) : PM × Option String :=
  (p, exitErr)

/-- `Pid()`: the process id once spawned, `-1` before. -/
def Pid (p : PM) : Int :=
  match p.proc with
  | some pid => (pid : Int)
  | none => -1

/-- `Session()`: the underlying PTY file, if one is in use. -/
def Session (p : PM) : Option Nat := p.pty

/-- Result of `SetWindowSize`: the "no PTY session active" error, or the
`pty.Setsize` call issued with the given row and column counts (its
result is whatever the resize ioctl reports; `resized` records the call
the code hands to it). -/
inductive ResizeResult where
  | noPTY
  | resized (rows cols : Nat)
deriving DecidableEq, Repr

/-- `SetWindowSize(rows, cols)`: fails with the "no PTY session active"
error when `pty` is not bound, else issues `pty.Setsize` with a `Winsize`
holding exactly the given rows and cols. -/
def SetWindowSize (p : PM) (rows cols : Nat) : ResizeResult :=
  match p.pty with
  | none => .noPTY
  | some _ => .resized rows cols

/-- The drain behavior the spec describes ("look up the *current* handler
value under the lock (re-read each time)"): each non-empty chunk goes to
the `onOutput` value the manager holds when that chunk is delivered, and a
non-EOF, non-EIO read error puts a diagnostic to the then-current
`onError`; formulated without the shared buffer. This is the spec-side
definition a drain loop is compared against. -/
def specCurrentHandlerDrain : List PtyStep → List Event
  | [] => []
  | s :: rest =>
    let dataEvents : List Event :=
      if s.read.1.length > 0 then
        match s.onOutput with
        | some h => [(h, s.read.1)]
        | none => []
      else []
    match s.read.2 with
    | none => dataEvents ++ specCurrentHandlerDrain rest
    | some e =>
      dataEvents ++
        if e ≠ ReadErr.eof ∧ e ≠ ReadErr.eio then
          match s.onError with
          | some h => [(h, bytesOfString ("\n[Read Error]: " ++ e.message ++ "\n"))]
          | none => []
        else []

/-- The fresh copy taken after a read equals the bytes that read returned,
whatever the buffer held before. -/
theorem bufWrite_take (buf chunk : Bytes) :
    (bufWrite buf chunk).take chunk.length = chunk := by
  simp [bufWrite, List.take_left]

/-- The PTY drain loop delivers exactly what the spec's current-handler
drain describes: the handler slots are re-read from the manager at every
iteration, and the copied chunk equals the bytes read. -/
theorem readOutput_eq_specCurrent (steps : List PtyStep) (buf : Bytes) :
    readOutput buf steps = specCurrentHandlerDrain steps := by
  induction steps generalizing buf with
  | nil => rfl
  | cons s rest ih =>
    simp only [readOutput, specCurrentHandlerDrain, bufWrite_take]
    cases s.read.2 with
    | none => simp [ih]
    | some e => rfl

/-- Every event a pipe-mode drain loop produces carries the handler value
the loop was launched with; a later `SetOutputHandler`/`SetErrorHandler`
cannot re-target it. -/
theorem readFromReader_fst (h : Nat) (buf : Bytes) (rs : List ReadResult) :
    (readFromReader (some h) buf rs).map Prod.fst =
      List.replicate (readFromReader (some h) buf rs).length h := by
  induction rs generalizing buf with
  | nil => rfl
  | cons r rest ih =>
    obtain ⟨chunk, e⟩ := r
    cases e with
    | none =>
      by_cases hc : chunk.length > 0 <;>
        simp [readFromReader, hc, ih, List.replicate_succ]
    | some er =>
      by_cases hc : chunk.length > 0 <;>
        by_cases he : er = ReadErr.eof <;>
          simp [readFromReader, hc, he, List.replicate_succ]

/-- On a stream that yields the non-empty chunks `cs` in order and then a
clean EOF, the pipe-mode drain loop delivers exactly `cs`, each chunk to
the launch handler, in order. -/
theorem readFromReader_chunks (h : Nat) (buf : Bytes) (cs : List Bytes)
    (hne : ∀ c ∈ cs, c ≠ []) :
    readFromReader (some h) buf
        (cs.map (fun c => (c, (none : Option ReadErr))) ++
          [([], some ReadErr.eof)]) =
      cs.map (fun c => (h, c)) := by
  induction cs generalizing buf with
  | nil => rfl
  | cons c rest ih =>
    have hc : c ≠ [] := hne c (List.mem_cons_self c rest)
    have hlen : c.length > 0 := List.length_pos.mpr hc
    simp only [List.map_cons, List.cons_append, readFromReader, bufWrite_take,
      hlen, if_pos]
    exact congrArg _ (ih _ fun x hx => hne x (List.mem_cons_of_mem _ hx))

/-- C6: `Stop()` clears `running`, triggers the cancellation token, closes
the PTY master and stdin pipe writer when present, sends a kill request iff
a process handle exists and returns that kill's error (nil when no handle);
a second `Stop` is defined (no panic) and surfaces the second kill attempt's
error. -/
theorem c6_stop_behavior (p : PM) (k k₂ : Option String) :
    ((Stop p k).1).running = false ∧
    ((Stop p k).1).cancelled = true ∧
    ((Stop p k).1).closedFiles =
      p.pty.toList ++ p.stdinPipe.toList ++ p.closedFiles ∧
    ((Stop p k).2).killSent = p.proc.isSome ∧
    ((Stop p k).2).err = (if p.proc.isSome then k else none) ∧
    ((Stop (Stop p k).1 k₂).2).err = (if p.proc.isSome then k₂ else none) := by
  cases hp : p.proc <;> simp [Stop, hp]

/-- C7: `Wait()` returns the child's exit status and leaves every manager
field unchanged — in particular `running` keeps its value, so after a
natural exit without `Stop`, `IsRunning` still reports true; `IsRunning`
is false on a freshly created manager, true after a successful start, and
false only after `Stop`. -/
theorem c7_wait_frame_isrunning (p : PM) (e k : Option String)
    (environ : List String) (c : String) (a : List String) (cfg : Config)
    (f pid sIn sOut sErr : Nat) :
    Wait p e = (p, e) ∧
    IsRunning (Wait p e).1 = p.running ∧
    IsRunning (New environ c a) = false ∧
    IsRunning (NewWithConfig environ cfg) = false ∧
    IsRunning ((StartWithPTY p true f pid).1) = true ∧
    IsRunning ((StartWithPipes p ⟨true, true, true, true⟩ sIn sOut sErr pid).1)
      = true ∧
    IsRunning ((Stop p k).1) = false ∧
    IsRunning ((Wait ((StartWithPTY p true f pid).1) e).1) = true := by
  cases hp : p.proc <;>
    simp [Wait, IsRunning, New, NewWithConfig, StartWithPTY, StartWithPipes,
      Stop, hp]

/-- C8: `NewWithConfig(cfg)` equals `New` on the same command and args
except that the environment is the inherited one with `cfg.Env` appended
when `cfg.Env` is non-empty (the inherited environment verbatim when it is
empty or nil) and the config handlers are pre-registered; being a total
function, it never fails. -/
theorem c8_new_with_config (environ : List String) (cfg : Config) :
    NewWithConfig environ cfg =
      { New environ cfg.command cfg.args with
          env := if cfg.env ≠ [] then environ ++ cfg.env else environ,
          onOutput := cfg.onOutput, onError := cfg.onError } := by
  simp only [NewWithConfig, New, List.length_pos]

/-- C9: `SetWindowSize(rows, cols)` fails with the `NoPTYSession` error
whenever no PTY is bound — on a freshly created manager and on a manager
started (or attempted) with pipes, which never binds a PTY — and with a
PTY bound it issues the resize with exactly the given row and column
counts and returns its result. -/
theorem c9_set_window_size (environ : List String) (c : String)
    (a : List String) (cfg : Config) (p : PM) (o : PipeOutcomes)
    (sIn sOut sErr pid f rows cols : Nat) :
    SetWindowSize (New environ c a) rows cols = .noPTY ∧
    SetWindowSize (NewWithConfig environ cfg) rows cols = .noPTY ∧
    ((StartWithPipes p o sIn sOut sErr pid).1).pty = p.pty ∧
    SetWindowSize ((StartWithPipes (New environ c a) o sIn sOut sErr pid).1)
      rows cols = .noPTY ∧
    SetWindowSize ((StartWithPTY p true f pid).1) rows cols
      = .resized rows cols := by
  obtain ⟨b1, b2, b3, b4⟩ := o
  cases b1 <;> cases b2 <;> cases b3 <;> cases b4 <;>
    simp [SetWindowSize, New, NewWithConfig, StartWithPipes, StartWithPTY]

/-- C10: `Writeln(s)` is `WriteString(s + "\n")`: it appends the single
line-feed byte 10 (0x0A), not the carriage-return byte 13 that `KeyEnter`
is made of, and like `WriteString` and `Writef` it discards the byte count
of the underlying `Write` and returns only its error. -/
theorem c10_writeln (p : PM) (s : String) :
    Writeln p s = WriteString p (s ++ "\n") ∧
    bytesOfString (s ++ "\n") = bytesOfString s ++ [10] ∧
    bytesOfString KeyEnter = [13] ∧
    Writeln p s = writeErrOf (Write p (bytesOfString s ++ [10])) ∧
    WriteString p s = writeErrOf (Write p (bytesOfString s)) ∧
    Writef p s = writeErrOf (Write p (bytesOfString s)) := by
  have hb : bytesOfString (s ++ "\n") = bytesOfString s ++ [10] := by
    simp [bytesOfString]
  exact ⟨rfl, hb, by decide, by rw [Writeln, WriteString, ← hb], rfl, rfl⟩

/-- C2 counterexample: on a PTY-started manager, `Stop` closes the PTY
master but leaves `pty` bound, so a subsequent `Write` goes to the closed
file and returns its closed-file error — not the `NoInputAvailable`
("no input pipe available") error the claim states. -/
theorem c2_counterexample :
    Write ((Stop ((StartWithPTY (New [] "bash" ["--norc"]) true 7 42).1)
        none).1) [65] = .error (.closed 7) ∧
    Except.error (α := Nat) (WriteError.closed 7) ≠
      Except.error (α := Nat) WriteError.noInput :=
  ⟨rfl, by simp⟩

/-- C2 amended: `Write` before any `Start*` call fails with
`NoInputAvailable`; with a transport active it writes to the PTY master if
the transport is PTY, otherwise to the stdin pipe, returning the
underlying result; after `Stop` on a started manager the sink stays bound
but closed, so `Write` returns the underlying closed-file write error
rather than `NoInputAvailable`. -/
theorem c2_amended_write_paths (environ : List String) (c : String)
    (a : List String) (cfg : Config) (p : PM) (data : Bytes)
    (f pid sIn sOut sErr : Nat) (k : Option String) :
    Write (New environ c a) data = .error .noInput ∧
    Write (NewWithConfig environ cfg) data = .error .noInput ∧
    Write ((StartWithPTY p true f pid).1) data
      = osWrite ((StartWithPTY p true f pid).1) f data ∧
    Write ((StartWithPipes (New environ c a) ⟨true, true, true, true⟩
        sIn sOut sErr pid).1) data
      = osWrite ((StartWithPipes (New environ c a) ⟨true, true, true, true⟩
        sIn sOut sErr pid).1) sIn data ∧
    Write ((Stop ((StartWithPTY p true f pid).1) k).1) data
      = .error (.closed f) ∧
    Write ((Stop ((StartWithPipes (New environ c a) ⟨true, true, true, true⟩
        sIn sOut sErr pid).1) k).1) data = .error (.closed sIn) := by
  refine ⟨rfl, rfl, rfl, rfl, ?_, ?_⟩ <;>
    simp [Write, osWrite, Stop, StartWithPTY, StartWithPipes, New,
      NewWithConfig]

/-- C3 counterexample: when the stdin pipe is created but the stdout pipe
creation fails, `StartWithPipes` returns the error with `stdinPipe`
already bound and the stdin pipe left open: a subsequent `Write` succeeds
against the orphaned pipe instead of failing with `NoInputAvailable`, and
the pipe is leaked (created, never closed). -/
theorem c3_counterexample :
    (StartWithPipes (New [] "bash" []) ⟨true, false, true, true⟩
        10 11 12 99).2 = some "create stdout pipe" ∧
    ((StartWithPipes (New [] "bash" []) ⟨true, false, true, true⟩
        10 11 12 99).1).stdinPipe = some 10 ∧
    ((StartWithPipes (New [] "bash" []) ⟨true, false, true, true⟩
        10 11 12 99).1).createdPipes = [10] ∧
    ((StartWithPipes (New [] "bash" []) ⟨true, false, true, true⟩
        10 11 12 99).1).closedFiles = [] ∧
    Write ((StartWithPipes (New [] "bash" []) ⟨true, false, true, true⟩
        10 11 12 99).1) [65] = .ok 1 ∧
    Except.ok (ε := WriteError) 1 ≠ Except.error (α := Nat)
      WriteError.noInput :=
  ⟨rfl, rfl, rfl, rfl, rfl, by simp⟩

/-- C3 amended: every failure of `StartWithPipes` returns a start error
and leaves `running`, the process handle and the drain-loop set unchanged
(no drain loop is launched); a stdin-pipe-creation failure leaves the
manager fully unchanged, but any later failure leaves `stdinPipe` bound to
the already-created stdin pipe (so a subsequent `Write` no longer fails
with `NoInputAvailable`), pipes created before a pipe-creation failure
stay open, and only the spawn-failure path closes the three created pipes
(via the process-start primitive). -/
theorem c3_amended_start_pipes_failure (p : PM)
    (sIn sOut sErr pid : Nat) (b2 b3 b4 b3' b4' b4'' : Bool) :
    StartWithPipes p ⟨false, b2, b3, b4⟩ sIn sOut sErr pid
      = (p, some "create stdin pipe") ∧
    StartWithPipes p ⟨true, false, b3', b4'⟩ sIn sOut sErr pid
      = ({ p with stdinPipe := some sIn,
                  createdPipes := sIn :: p.createdPipes },
         some "create stdout pipe") ∧
    StartWithPipes p ⟨true, true, false, b4''⟩ sIn sOut sErr pid
      = ({ p with stdinPipe := some sIn,
                  createdPipes := sOut :: sIn :: p.createdPipes },
         some "create stderr pipe") ∧
    StartWithPipes p ⟨true, true, true, false⟩ sIn sOut sErr pid
      = ({ p with stdinPipe := some sIn,
                  createdPipes := sErr :: sOut :: sIn :: p.createdPipes,
                  closedFiles := sErr :: sOut :: sIn :: p.closedFiles },
         some "start command") := by
  refine ⟨?_, ?_, ?_, ?_⟩ <;> simp [StartWithPipes]

/-- C1 counterexample: `StartWithPipes` hands each drain goroutine the
handler value the slot holds at launch (`go p.readFromReader(stdout,
p.onOutput)`), so after starting with output handler 1 and swapping to
handler 3, the stdout drain loop still delivers the next chunk to
handler 1, while the current-handler behavior the claim states would
deliver it to handler 3. -/
theorem c1_counterexample :
    (SetOutputHandler ((StartWithPipes
          (NewWithConfig [] { command := "cat", onOutput := some 1,
                              onError := some 2 })
          ⟨true, true, true, true⟩ 10 11 12 99).1) (some 3)).drains
      = [(11, some 1), (12, some 2)] ∧
    (SetOutputHandler ((StartWithPipes
          (NewWithConfig [] { command := "cat", onOutput := some 1,
                              onError := some 2 })
          ⟨true, true, true, true⟩ 10 11 12 99).1) (some 3)).onOutput
      = some 3 ∧
    readFromReader (some 1) (List.replicate 4096 0) [([65], none)]
      = [(1, [65])] ∧
    specCurrentHandlerDrain [⟨some 3, some 2, ([65], none)⟩]
      = [(3, [65])] ∧
    ([(1, [65])] : List Event) ≠ [(3, [65])] := by
  decide

/-- C1 amended: the PTY drain loop re-reads the handler slots under the
lock before each delivery, so it behaves exactly as the spec's
current-handler drain and a swap takes effect from the next chunk; the two
pipe-mode drain loops instead deliver every chunk to the handler value
captured when `StartWithPipes` launched them, and later
`SetOutputHandler`/`SetErrorHandler` calls do not re-target them. No chunk
is delivered to two handler values. -/
theorem c1_amended_handler_currency (p : PM) (h : Option Nat) (hdl : Nat)
    (buf : Bytes) (steps : List PtyStep) (rs : List ReadResult)
    (sIn sOut sErr pid : Nat) :
    readOutput buf steps = specCurrentHandlerDrain steps ∧
    (readFromReader (some hdl) buf rs).map Prod.fst
      = List.replicate (readFromReader (some hdl) buf rs).length hdl ∧
    (SetOutputHandler p h).drains = p.drains ∧
    (SetErrorHandler p h).drains = p.drains ∧
    ((StartWithPipes p ⟨true, true, true, true⟩ sIn sOut sErr pid).1).drains
      = [(sOut, p.onOutput), (sErr, p.onError)] :=
  ⟨readOutput_eq_specCurrent steps buf, readFromReader_fst hdl buf rs,
   rfl, rfl, rfl⟩

/-- C4 counterexample: the pipe-mode stdout drain loop is launched with
the *output* handler, and `readFromReader` delivers its read-error
diagnostic to that same handler — so a stdout read error reaches the
output handler (value 1), not the error handler (value 2) as the claim
states. -/
theorem c4_counterexample :
    ((StartWithPipes
          (NewWithConfig [] { command := "cat", onOutput := some 1,
                              onError := some 2 })
          ⟨true, true, true, true⟩ 10 11 12 99).1).drains
      = [(11, some 1), (12, some 2)] ∧
    readFromReader (some 1) (List.replicate 4096 0)
        [([], some (ReadErr.other "bad file descriptor"))]
      = [(1, bytesOfString "[Read Error]: bad file descriptor\n")] ∧
    ((StartWithPipes
          (NewWithConfig [] { command := "cat", onOutput := some 1,
                              onError := some 2 })
          ⟨true, true, true, true⟩ 10 11 12 99).1).onError = some 2 ∧
    (1 : Nat) ≠ 2 := by
  decide

/-- C4 amended: for every drain loop an ordinary end-of-stream read (no
bytes, `io.EOF`) ends the loop with no handler invocation; the PTY loop
treats `EIO` exactly like end-of-stream; any other read error is formatted
as a diagnostic and delivered exactly once to the loop's own handler —
the error handler for the PTY loop, but the handler the loop was launched
with for pipe mode (the output handler on the stdout loop, where even
`EIO` is surfaced) — after which the loop terminates and never restarts
(the remaining schedule is ignored). -/
theorem c4_amended_drain_error_handling (buf : Bytes) (o e : Option Nat)
    (he hdl : Nat) (chunk : Bytes) (m : String)
    (steps steps' : List PtyStep) (rs : List ReadResult) :
    readOutput buf (⟨o, e, ([], some ReadErr.eof)⟩ :: steps) = [] ∧
    readFromReader (some hdl) buf (([], some ReadErr.eof) :: rs) = [] ∧
    readOutput buf (⟨o, e, (chunk, some ReadErr.eio)⟩ :: steps)
      = readOutput buf (⟨o, e, (chunk, some ReadErr.eof)⟩ :: steps') ∧
    readOutput buf (⟨o, some he, ([], some (ReadErr.other m))⟩ :: steps)
      = [(he, bytesOfString ("\n[Read Error]: " ++ m ++ "\n"))] ∧
    readFromReader (some hdl) buf (([], some (ReadErr.other m)) :: rs)
      = [(hdl, bytesOfString ("[Read Error]: " ++ m ++ "\n"))] ∧
    readFromReader (some hdl) buf (([], some ReadErr.eio) :: rs)
      = [(hdl, bytesOfString "[Read Error]: input/output error\n")] :=
  ⟨rfl, rfl, rfl, rfl, rfl, rfl⟩

/-- C5: in pipe mode, a stdout stream that yields the non-empty chunks
`cs` (each at most the fixed 4096-byte read size) and then closes is
delivered to the output handler as exactly those chunks, in order, with no
byte duplicated or dropped; each delivered chunk is the fresh copy taken
from the read buffer (`bufWrite`/`take`, see `bufWrite_take`), not the
shared buffer itself. -/
theorem c5_pipe_stream_delivery (hdl : Nat) (buf bs : Bytes)
    (cs : List Bytes) (hjoin : cs.flatten = bs)
    (hc : ∀ c ∈ cs, c ≠ [] ∧ c.length ≤ 4096) :
    readFromReader (some hdl) buf
        (cs.map (fun c => (c, (none : Option ReadErr))) ++
          [([], some ReadErr.eof)])
      = cs.map (fun c => (hdl, c)) ∧
    (cs.map (fun c => (hdl, c))).map Prod.snd = cs ∧
    ((cs.map (fun c => (hdl, c))).map Prod.snd).flatten = bs ∧
    ∀ ev ∈ cs.map (fun c => (hdl, c)), ev.1 = hdl ∧ ev.2.length ≤ 4096 := by
  have hsnd : (cs.map (fun c => (hdl, c))).map Prod.snd = cs := by
    simp
  refine ⟨readFromReader_chunks hdl buf cs (fun c hx => (hc c hx).1),
    hsnd, by rw [hsnd, hjoin], ?_⟩
  intro ev hev
  obtain ⟨c, hcmem, rfl⟩ := List.mem_map.mp hev
  exact ⟨rfl, (hc c hcmem).2⟩

/-- Witness for C5 at a concrete stream: bytes 65 66 67 arriving as the
chunks [65, 66] and [67]. -/
theorem c5_witness :
    (([[65, 66], [67]] : List Bytes).flatten = [65, 66, 67]) ∧
    (∀ c ∈ ([[65, 66], [67]] : List Bytes), c ≠ [] ∧ c.length ≤ 4096) ∧
    (readFromReader (some 1) []
        (([[65, 66], [67]] : List Bytes).map
            (fun c => (c, (none : Option ReadErr))) ++
          [([], some ReadErr.eof)])
      = ([[65, 66], [67]] : List Bytes).map (fun c => (1, c)) ∧
    (([[65, 66], [67]] : List Bytes).map (fun c => (1, c))).map Prod.snd
      = [[65, 66], [67]] ∧
    ((([[65, 66], [67]] : List Bytes).map (fun c => (1, c))).map
        Prod.snd).flatten = [65, 66, 67] ∧
    ∀ ev ∈ ([[65, 66], [67]] : List Bytes).map (fun c => (1, c)),
      ev.1 = 1 ∧ ev.2.length ≤ 4096) :=
  ⟨by decide, by decide,
   c5_pipe_stream_delivery 1 [] [65, 66, 67] [[65, 66], [67]]
     (by decide) (by decide)⟩

end Pipeit
